import Mathlib

/-!
Shallow embedding of the tenant-context module (`src/db/tenant.ts`) of the
renaissance-community-template repository, together with proofs of the
testable properties stated in its specification.

Modelling conventions:
* A Node request field of TypeScript type `string | string[] | undefined`
  becomes the inductive `HVal`.
* The process-wide mutable slot `currentTenantId` becomes an explicit state
  argument of type `String`, threaded through every operation that reads or
  writes it in the source.
* A handler that may `throw` becomes a state-passing function returning
  `Except ε α`; the `try … finally` of `withTenant` runs the reset on the
  state regardless of the handler outcome and propagates the outcome.
* A drizzle query condition (`SQL`) becomes a small syntax with constructors
  for `eq`, `and` and an opaque caller-supplied predicate, together with a
  row-satisfaction semantics `SQL.sat`.
* A JavaScript object (insert data) becomes a key-to-value map
  `String → Option JSVal`; the spread `{...data, tenantId: v}` is the map
  agreeing with `data` everywhere except at key `"tenantId"`.
-/

/-- From `src/db/schema.ts`: `export const DEFAULT_TENANT_ID = 'default';` -/
def DEFAULT_TENANT_ID : String := "default"

/-- A request header or query value: `string | string[] | undefined`. -/
inductive HVal : Type where
  | str : String → HVal
  | arr : List String → HVal
  | undef : HVal
deriving DecidableEq

/-- The request shape consumed by `getTenantFromRequest` and `withTenant`:
`{ headers: { [key: string]: string | string[] | undefined };
   query: { [key: string]: string | string[] | undefined } }`. -/
structure Req where
  headers : String → HVal
  query : String → HVal

/-- JavaScript truthiness combined with the `typeof v === 'string'` guard used
twice in `getTenantFromRequest`: `v && typeof v === 'string'` holds exactly
when `v` is a string and that string is nonempty (the empty string is falsy;
an array is truthy but fails the `typeof` test). Returns the string when the
guard passes. -/
def jsTruthyString : HVal → Option String
  | HVal.str s => if s = "" then none else some s
  | HVal.arr _ => none
  | HVal.undef => none

/-- `getTenantFromRequest(req)` from `src/db/tenant.ts` lines 81–99:
priority 1 the `x-tenant-id` header, priority 2 the `tenant` query
parameter, fallback `DEFAULT_TENANT_ID`. -/
def getTenantFromRequest (req : Req) : String :=
  match jsTruthyString (req.headers "x-tenant-id") with
  | some headerTenant => headerTenant
  | none =>
    match jsTruthyString (req.query "tenant") with
    | some queryTenant => queryTenant
    | none => DEFAULT_TENANT_ID

/-- `setCurrentTenant(tenantId)`: overwrites the slot with `tenantId`.
The argument after the tenant id is the prior slot state. -/
def setCurrentTenant (tenantId : String) (_currentTenantId : String) : String :=
  tenantId

/-- `getCurrentTenant()`: reads the slot. -/
def getCurrentTenant (currentTenantId : String) : String :=
  currentTenantId

/-- `resetTenant()`: sets the slot back to `DEFAULT_TENANT_ID`. -/
def resetTenant (_currentTenantId : String) : String :=
  DEFAULT_TENANT_ID

/-- Drizzle query conditions as built by `withTenantFilter`: an equality test
of a (string-valued) column against a constant, a conjunction, or an opaque
caller-supplied condition. -/
inductive SQL (Row : Type) : Type where
  | eq : (Row → String) → String → SQL Row
  | and : SQL Row → SQL Row → SQL Row
  | raw : (Row → Bool) → SQL Row

/-- Row satisfaction for `SQL` conditions: `eq col v` holds when the row's
column value equals `v`; `and` is conjunction; `raw p` is `p`. -/
def SQL.sat {Row : Type} : SQL Row → Row → Bool
  | SQL.eq col v, row => col row == v
  | SQL.and a b, row => a.sat row && b.sat row
  | SQL.raw p, row => p row

/-- `withTenantFilter(tenantIdColumn, existingCondition?)` from
`src/db/tenant.ts` lines 39–50, with the module slot `currentTenantId`
passed explicitly: builds `eq(tenantIdColumn, currentTenantId)` and ANDs the
existing condition onto it when one was supplied (an `SQL` object is always
truthy, an omitted optional parameter is `undefined`). -/
def withTenantFilter {Row : Type} (tenantIdColumn : Row → String)
    (currentTenantId : String) (existingCondition : Option (SQL Row)) :
    SQL Row :=
  let tenantCondition := SQL.eq tenantIdColumn currentTenantId
  match existingCondition with
  | some c => SQL.and tenantCondition c
  | none => tenantCondition

/-- JavaScript values stored in an insert record. -/
inductive JSVal : Type where
  | str : String → JSVal
  | num : Int → JSVal
  | bool : Bool → JSVal
  | null : JSVal
deriving DecidableEq

/-- An insert record, as the map from property names to values. -/
def RecMap : Type := String → Option JSVal

/-- `withTenantId(data)` from `src/db/tenant.ts` lines 55–62, with the module
slot passed explicitly: `{ ...data, tenantId: currentTenantId }`, the shallow
copy of `data` whose `tenantId` property is the active tenant id. -/
def withTenantId (data : RecMap) (currentTenantId : String) : RecMap :=
  fun key =>
    if key = "tenantId" then some (JSVal.str currentTenantId) else data key

/-- A request handler as wrapped by `withTenant`: receives the request, the
response object, the resolved tenant id, and the slot state at invocation;
returns its outcome (`Except.error` models a thrown error) and the slot state
it leaves behind. -/
def Handler (ρ ε α : Type) : Type :=
  Req → ρ → String → String → Except ε α × String

/-- `withTenant(handler)` from `src/db/tenant.ts` lines 104–125: resolve the
tenant id from the request, store it with `setCurrentTenant`, run the handler,
and — on the `finally` path, whatever the handler's outcome — run
`resetTenant` on the state the handler left, propagating the handler's
outcome unchanged. -/
def withTenant {ρ ε α : Type} (handler : Handler ρ ε α)
    (req : Req) (res : ρ) (st : String) : Except ε α × String :=
  let tenantId := getTenantFromRequest req
  let st1 := setCurrentTenant tenantId st
  let r := handler req res tenantId st1
  (r.1, resetTenant r.2)

/-- A handler that performs no write to the tenant slot: it threads the slot
state through unchanged, and its result is an arbitrary function `f` of the
value every `getCurrentTenant()` call inside it observes. -/
def readOnlyHandler {ρ β : Type} (f : String → β) : Handler ρ Unit β :=
  fun _ _ _ st => (Except.ok (f (getCurrentTenant st)), st)

/-- A handler that always throws the fixed error `"boom"`. -/
def throwingHandler : Handler Unit String Unit :=
  fun _ _ _ st => (Except.error "boom", st)

/-- A request carrying only the header `x-tenant-id: acme`. -/
def reqAcme : Req where
  headers := fun k => if k = "x-tenant-id" then HVal.str "acme" else HVal.undef
  query := fun _ => HVal.undef

/-- A request carrying only the header `x-tenant-id: beta`. -/
def reqBeta : Req where
  headers := fun k => if k = "x-tenant-id" then HVal.str "beta" else HVal.undef
  query := fun _ => HVal.undef

/-- A request carrying the header `x-tenant-id: acme` and the query parameter
`tenant=beta`. -/
def reqBoth : Req where
  headers := fun k => if k = "x-tenant-id" then HVal.str "acme" else HVal.undef
  query := fun k => if k = "tenant" then HVal.str "beta" else HVal.undef

/-- A request with no tenant header and no tenant query parameter. -/
def reqEmpty : Req where
  headers := fun _ => HVal.undef
  query := fun _ => HVal.undef

/-- A request whose `x-tenant-id` header is array-valued (a repeated header)
and whose `tenant` query parameter is the string `beta`. -/
def reqArrHeader : Req where
  headers := fun k =>
    if k = "x-tenant-id" then HVal.arr ["acme", "beta"] else HVal.undef
  query := fun k => if k = "tenant" then HVal.str "beta" else HVal.undef

/-- A record `{ title: "hello", tenantId: "evil" }`. -/
def exData : RecMap :=
  fun key =>
    if key = "title" then some (JSVal.str "hello")
    else if key = "tenantId" then some (JSVal.str "evil")
    else none

/-- Claim C1: when two wrapped requests run strictly sequentially (R2's
wrapped execution starts from the state R1's wrapped execution left behind),
every `getCurrentTenant()` call made inside R2's handler — any handler that
does not itself write the slot — observes the tenant id resolved from R2's
inputs by `getTenantFromRequest`, and, when R1 resolves to a different
tenant, never observes R1's tenant id. -/
theorem withTenant_sequential_isolation {ρ ε α β : Type}
    (h1 : Handler ρ ε α) (f : String → β) (r1 r2 : Req) (res1 res2 : ρ)
    (st0 : String)
    (hne : getTenantFromRequest r1 ≠ getTenantFromRequest r2) :
    (withTenant (readOnlyHandler f) r2 res2 (withTenant h1 r1 res1 st0).2).1
      = Except.ok (f (getTenantFromRequest r2))
    ∧ getCurrentTenant (setCurrentTenant (getTenantFromRequest r2)
        (withTenant h1 r1 res1 st0).2) ≠ getTenantFromRequest r1 := by
  constructor
  · simp [withTenant, readOnlyHandler, getCurrentTenant, setCurrentTenant]
  · simp [getCurrentTenant, setCurrentTenant]
    exact fun h => hne h.symm

/-- Claim C1 witness: request `reqAcme` then request `reqBeta`, handled
sequentially, with the observing handler returning what it read. -/
theorem withTenant_sequential_isolation_witness :
    (withTenant (readOnlyHandler id) reqBeta ()
        (withTenant (readOnlyHandler id) reqAcme () DEFAULT_TENANT_ID).2).1
      = Except.ok (getTenantFromRequest reqBeta)
    ∧ getCurrentTenant (setCurrentTenant (getTenantFromRequest reqBeta)
        (withTenant (readOnlyHandler id) reqAcme () DEFAULT_TENANT_ID).2)
      ≠ getTenantFromRequest reqAcme := by
  have h := withTenant_sequential_isolation (ρ := Unit)
    (readOnlyHandler id) id reqAcme reqBeta () () DEFAULT_TENANT_ID
    (by decide)
  simpa using h

/-- Claim C2: for every handler and every request, after the function
returned by `withTenant` finishes — the handler having returned normally or
thrown — the tenant slot holds the default tenant id again, so
`getCurrentTenant()` returns `DEFAULT_TENANT_ID`. -/
theorem withTenant_resets_after {ρ ε α : Type} (handler : Handler ρ ε α)
    (req : Req) (res : ρ) (st : String) :
    (withTenant handler req res st).2 = DEFAULT_TENANT_ID
    ∧ getCurrentTenant (withTenant handler req res st).2
        = DEFAULT_TENANT_ID := by
  constructor <;> simp [withTenant, resetTenant, getCurrentTenant]

/-- Claim C3: a row satisfies the condition built by `withTenantFilter`
while the active tenant is `T` exactly when its tenant column equals `T`
and it also satisfies the caller-supplied condition whenever one was
provided. -/
theorem withTenantFilter_sat_iff {Row : Type} (col : Row → String)
    (T : String) (ex : Option (SQL Row)) (row : Row) :
    (withTenantFilter col T ex).sat row = true
      ↔ col row = T ∧ ∀ c, ex = some c → c.sat row = true := by
  cases ex with
  | none =>
      simp [withTenantFilter, SQL.sat]
  | some c =>
      simp [withTenantFilter, SQL.sat, and_comm]

/-- Claim C4: `withTenantId(data)` with active tenant `T` yields the record
whose `tenantId` property is `T` and which agrees with `data` on every other
key. -/
theorem withTenantId_scopes_insert (data : RecMap) (T : String) :
    withTenantId data T "tenantId" = some (JSVal.str T)
    ∧ ∀ k, k ≠ "tenantId" → withTenantId data T k = data k := by
  refine ⟨rfl, fun k hk => ?_⟩
  simp [withTenantId, hk]

/-- Claim C4 witness: on the record `{ title: "hello", tenantId: "evil" }`
with active tenant `acme`, the result's `tenantId` is `acme` and its `title`
is the original value. -/
theorem withTenantId_scopes_insert_witness :
    withTenantId exData "acme" "tenantId" = some (JSVal.str "acme")
    ∧ withTenantId exData "acme" "title" = exData "title" :=
  ⟨(withTenantId_scopes_insert exData "acme").1,
   (withTenantId_scopes_insert exData "acme").2 "title" (by decide)⟩

/-- Claim C5: when a request carries both a nonempty `x-tenant-id` header
string and a `tenant` query parameter, `getTenantFromRequest` returns the
header's value. -/
theorem getTenantFromRequest_header_precedence (req : Req) (h q : String)
    (hh : req.headers "x-tenant-id" = HVal.str h) (hne : h ≠ "")
    (hq : req.query "tenant" = HVal.str q) :
    getTenantFromRequest req = h := by
  simp [getTenantFromRequest, hh, jsTruthyString, hne]

/-- Claim C5 witness: the request with header `x-tenant-id: acme` and query
`tenant=beta` resolves to `acme`. -/
theorem getTenantFromRequest_header_precedence_witness :
    getTenantFromRequest reqBoth = "acme" :=
  getTenantFromRequest_header_precedence reqBoth "acme" "beta"
    (by decide) (by decide) (by decide)

/-- Claim C6: when the handler throws an error `e`, the function returned by
`withTenant` rethrows exactly `e` (the outcome is `Except.error e`,
unchanged), and the reset still ran: the final slot state is the default
tenant id. -/
theorem withTenant_rethrows {ρ ε α : Type} (handler : Handler ρ ε α)
    (req : Req) (res : ρ) (st : String) (e : ε)
    (hthrow : (handler req res (getTenantFromRequest req)
        (setCurrentTenant (getTenantFromRequest req) st)).1
      = Except.error e) :
    (withTenant handler req res st).1 = Except.error e
    ∧ (withTenant handler req res st).2 = DEFAULT_TENANT_ID := by
  constructor
  · simpa [withTenant] using hthrow
  · simp [withTenant, resetTenant]

/-- Claim C6 witness: a handler that always throws `"boom"` on `reqAcme`
yields exactly `Except.error "boom"` with the slot reset. -/
theorem withTenant_rethrows_witness :
    (withTenant throwingHandler reqAcme () DEFAULT_TENANT_ID).1
      = Except.error "boom"
    ∧ (withTenant throwingHandler reqAcme () DEFAULT_TENANT_ID).2
      = DEFAULT_TENANT_ID :=
  withTenant_rethrows throwingHandler reqAcme () DEFAULT_TENANT_ID "boom" rfl

/-- Claim C7: a request carrying neither an `x-tenant-id` header nor a
`tenant` query parameter resolves to the default tenant id (the function is
total — no error is raised). -/
theorem getTenantFromRequest_fallback_default (req : Req)
    (hh : req.headers "x-tenant-id" = HVal.undef)
    (hq : req.query "tenant" = HVal.undef) :
    getTenantFromRequest req = DEFAULT_TENANT_ID := by
  simp [getTenantFromRequest, hh, hq, jsTruthyString]

/-- Claim C7 witness: the request with no tenant header and no tenant query
parameter resolves to `DEFAULT_TENANT_ID`. -/
theorem getTenantFromRequest_fallback_default_witness :
    getTenantFromRequest reqEmpty = DEFAULT_TENANT_ID :=
  getTenantFromRequest_fallback_default reqEmpty rfl rfl

/-- Claim C8: an `x-tenant-id` header that is array-valued or the empty
string fails the truthy-string guard and is skipped; then a non-string or
empty or absent `tenant` query parameter falls through to the default, and a
nonempty string query parameter is returned — in particular, array-valued
header plus nonempty query parameter yields the query parameter's value. -/
theorem getTenantFromRequest_skips_nonstring (req : Req)
    (hh : (∃ l, req.headers "x-tenant-id" = HVal.arr l)
      ∨ req.headers "x-tenant-id" = HVal.str "") :
    (∀ q, req.query "tenant" = HVal.str q → q ≠ ""
        → getTenantFromRequest req = q)
    ∧ ((∃ l, req.query "tenant" = HVal.arr l)
        ∨ req.query "tenant" = HVal.str ""
        ∨ req.query "tenant" = HVal.undef
      → getTenantFromRequest req = DEFAULT_TENANT_ID) := by
  have hnone : jsTruthyString (req.headers "x-tenant-id") = none := by
    rcases hh with ⟨l, hl⟩ | hs
    · simp [hl, jsTruthyString]
    · simp [hs, jsTruthyString]
  constructor
  · intro q hq hqne
    unfold getTenantFromRequest
    rw [hnone, hq]
    simp [jsTruthyString, hqne]
  · intro hq
    unfold getTenantFromRequest
    rw [hnone]
    rcases hq with ⟨l, hl⟩ | hs | hu
    · rw [hl]; simp [jsTruthyString]
    · rw [hs]; simp [jsTruthyString]
    · rw [hu]; simp [jsTruthyString]

/-- Claim C8 witness: with the repeated header `x-tenant-id: [acme, beta]`
and query `tenant=beta`, resolution returns `beta`. -/
theorem getTenantFromRequest_skips_nonstring_witness :
    getTenantFromRequest reqArrHeader = "beta" :=
  (getTenantFromRequest_skips_nonstring reqArrHeader
      (Or.inl ⟨["acme", "beta"], rfl⟩)).1 "beta" rfl (by decide)

/-- Claim C9: when the input record already carries a `tenantId` value `V`,
`withTenantId` discards it: the result's `tenantId` is the active tenant
`T`, and whenever `V` differs from `T`'s string value the result's
`tenantId` is not `V`. -/
theorem withTenantId_overrides_caller_tenant (data : RecMap) (T : String)
    (v : JSVal) (hv : data "tenantId" = some v) :
    withTenantId data T "tenantId" = some (JSVal.str T)
    ∧ (v ≠ JSVal.str T → withTenantId data T "tenantId" ≠ some v) := by
  refine ⟨rfl, fun hvne heq => hvne ?_⟩
  simp [withTenantId] at heq
  exact heq.symm

/-- Claim C9 witness: the record `{ title: "hello", tenantId: "evil" }`
inserted with active tenant `acme` gets `tenantId = "acme"`, and its
caller-supplied `"evil"` does not survive. -/
theorem withTenantId_overrides_caller_tenant_witness :
    withTenantId exData "acme" "tenantId" = some (JSVal.str "acme")
    ∧ withTenantId exData "acme" "tenantId" ≠ some (JSVal.str "evil") :=
  ⟨(withTenantId_overrides_caller_tenant exData "acme"
      (JSVal.str "evil") rfl).1,
   (withTenantId_overrides_caller_tenant exData "acme"
      (JSVal.str "evil") rfl).2 (by decide)⟩

/-- Claim C10: the function returned by `withTenant` invokes the handler
with third argument exactly `getTenantFromRequest req`, on the slot state
produced by `setCurrentTenant` of that same id — and that stored slot value
equals the id passed to the handler. -/
theorem withTenant_passes_resolved_tenant {ρ ε α : Type}
    (handler : Handler ρ ε α) (req : Req) (res : ρ) (st : String) :
    withTenant handler req res st
      = ((handler req res (getTenantFromRequest req)
            (setCurrentTenant (getTenantFromRequest req) st)).1,
         DEFAULT_TENANT_ID)
    ∧ getCurrentTenant (setCurrentTenant (getTenantFromRequest req) st)
        = getTenantFromRequest req := by
  constructor
  · simp [withTenant, resetTenant]
  · simp [getCurrentTenant, setCurrentTenant]
